import Mathlib

/-!
Verification development for the media-catalog annotation store
(source: src/production.rs).

The Rust data model is embedded shallowly:
  * `u32` fields become `Nat` (no arithmetic is performed on them; the
    JSON decoder checks the `u32` range `< 2^32` explicitly, as serde does);
  * `f32` fields become `Rat`.  The store only moves float values between a
    struct field and a JSON number, it never computes with them; finite
    `f32` values embed injectively into `Rat` and the serde_json
    print/parse pair is exact on them, so the transport is modelled as the
    identity on the embedded rational;
  * `Vec<T>` becomes `List T`, `Option<T>` becomes `Option T`,
    `String` becomes `String`;
  * file contents manipulated bytewise (the atomic-save protocol) become
    `List Char`; file contents manipulated as parsed JSON documents (the
    load path) become a `FileContent` that is either a parsed `Json` value
    or `malformed` (a file whose bytes do not parse as JSON);
  * the filesystem becomes an association list from path to content, and
    the fallible I/O calls made by one save are driven by an explicit
    oracle recording which call fails (and how many bytes `write` accepts,
    per the contract of Rust `io::Write::write`, which may accept fewer
    bytes than offered without reporting an error);
  * a Rust function that can panic returns `RunResult`, whose `panicked`
    constructor records the panic message.
-/

namespace Moviesdesk

/-! ## Catalog record model (structs `Series`, `Movie` of production.rs) -/

structure Series where
  id : Nat
  name : String
  original_language : String
  overview : String
  popularity : Rat
  poster_path : Option String
  first_air_date : String
  vote_average : Rat
  adult : Bool
deriving DecidableEq

structure Movie where
  id : Nat
  title : String
  original_language : String
  overview : String
  popularity : Rat
  poster_path : Option String
  release_date : String
  vote_average : Rat
  vote_count : Nat
  adult : Bool
deriving DecidableEq

/-! ## Annotation hierarchy (`UserMovie`, `UserSeries`, `SeasonNotes`) -/

structure SeasonNotes where
  note : String
  episode_notes : List String
deriving DecidableEq

/-- Constructor `SeasonNotes::new`: empty note, empty episode list. -/
def SeasonNotes.new : SeasonNotes :=
  { note := "", episode_notes := [] }

structure UserMovie where
  movie : Movie
  user_rating : Rat
  note : String
deriving DecidableEq

structure UserSeries where
  series : Series
  user_rating : Rat
  note : String
  season_notes : List SeasonNotes
deriving DecidableEq

/-- The `for _ in 0..fill { v.push(a) }` loop: append `a` to `xs`, `n` times. -/
def pushLoop (xs : List α) (a : α) : Nat → List α
  | 0 => xs
  | n + 1 => pushLoop (xs ++ [a]) a n

/-- Operation `UserSeries::ensure_seasons` (production.rs lines 85-93). -/
def UserSeries.ensure_seasons (self : UserSeries) (len : Nat) : UserSeries :=
  if self.season_notes.length ≥ len then
    self
  else
    let fill := len - self.season_notes.length
    { self with season_notes := pushLoop self.season_notes SeasonNotes.new fill }

/-- Operation `SeasonNotes::ensure_episodes` (production.rs lines 109-117). -/
def SeasonNotes.ensure_episodes (self : SeasonNotes) (len : Nat) : SeasonNotes :=
  if self.episode_notes.length ≥ len then
    self
  else
    let fill := len - self.episode_notes.length
    { self with episode_notes := pushLoop self.episode_notes "" fill }

/-- Rust integer subtraction `a - b` on `usize`, made explicit: it is an
error (overflow panic in debug builds, wrap-around in release builds) when
`b > a`.  Used to state that the shortfall subtraction in the `ensure`
operations never underflows. -/
def checkedSub (a b : Nat) : Option Nat :=
  if b ≤ a then some (a - b) else none

/-- Version of `ensure_seasons` with the shortfall subtraction checked: `none` would
mean the subtraction underflowed. -/
def UserSeries.ensure_seasons_checked (self : UserSeries) (len : Nat) : Option UserSeries :=
  if self.season_notes.length ≥ len then
    some self
  else
    match checkedSub len self.season_notes.length with
    | none => none
    | some fill =>
        some { self with season_notes := pushLoop self.season_notes SeasonNotes.new fill }

/-- Version of `ensure_episodes` with the shortfall subtraction checked. -/
def SeasonNotes.ensure_episodes_checked (self : SeasonNotes) (len : Nat) : Option SeasonNotes :=
  if self.episode_notes.length ≥ len then
    some self
  else
    match checkedSub len self.episode_notes.length with
    | none => none
    | some fill =>
        some { self with episode_notes := pushLoop self.episode_notes "" fill }

/-! ## Unified list projection (`EntryType`, `ListEntry`) -/

inductive EntryType where
  | movie (id : Nat)
  | series (id : Nat)
  | none
deriving DecidableEq

structure ListEntry where
  production_id : EntryType
  name : String
  poster_path : Option String
  rating : Rat
deriving DecidableEq

/-- Projection `ListEntry::from_movie`. -/
def ListEntry.from_movie (movie : Movie) : ListEntry :=
  { production_id := .movie movie.id
    name := movie.title
    poster_path := movie.poster_path
    rating := movie.vote_average }

/-- Projection `ListEntry::from_series`. -/
def ListEntry.from_series (series : Series) : ListEntry :=
  { production_id := .series series.id
    name := series.name
    poster_path := series.poster_path
    rating := series.vote_average }

/-- Comparison `ListEntry::is_selected` (production.rs lines 225-241).  The Rust
let-else patterns become inner matches with a `false` fallback. -/
def ListEntry.is_selected (self : ListEntry) (entry : EntryType) : Bool :=
  match entry with
  | .movie selected_id =>
      match self.production_id with
      | .movie list_entry_id => selected_id == list_entry_id
      | _ => false
  | .series selected_id =>
      match self.production_id with
      | .series list_entry_id => selected_id == list_entry_id
      | _ => false
  | .none => false

/-! ## Helper lemmas about the growth loop -/

theorem pushLoop_eq_append (a : α) :
    ∀ (n : Nat) (xs : List α), pushLoop xs a n = xs ++ List.replicate n a := by
  intro n
  induction n with
  | zero => intro xs; simp [pushLoop]
  | succ k ih =>
      intro xs
      rw [pushLoop, ih (xs ++ [a]), List.append_assoc]
      rfl

theorem ensure_seasons_eq (us : UserSeries) (n : Nat) :
    us.ensure_seasons n =
      { us with season_notes :=
          us.season_notes ++
            List.replicate (n - us.season_notes.length) SeasonNotes.new } := by
  unfold UserSeries.ensure_seasons
  split
  · rename_i h
    have hz : n - us.season_notes.length = 0 := Nat.sub_eq_zero_of_le h
    simp [hz]
  · simp [pushLoop_eq_append]

theorem ensure_episodes_eq (sn : SeasonNotes) (n : Nat) :
    sn.ensure_episodes n =
      { sn with episode_notes :=
          sn.episode_notes ++
            List.replicate (n - sn.episode_notes.length) "" } := by
  unfold SeasonNotes.ensure_episodes
  split
  · rename_i h
    have hz : n - sn.episode_notes.length = 0 := Nat.sub_eq_zero_of_le h
    simp [hz]
  · simp [pushLoop_eq_append]

theorem take_len_append (xs ys : List α) : (xs ++ ys).take xs.length = xs := by
  induction xs with
  | nil => simp
  | cons x xs ih => simp [ih]

theorem drop_len_append (xs ys : List α) : (xs ++ ys).drop xs.length = ys := by
  induction xs with
  | nil => simp
  | cons x xs ih => simp [ih]

/-! ## JSON document model (serde_json `Value`)

serde_json numbers are modelled as `Rat` (see the header comment); an
object is an association list of key/value pairs.  serde_json objects are
maps with unique keys, so looking a key up by its first occurrence agrees
with map access. -/

inductive Json where
  | null
  | bool (b : Bool)
  | num (q : Rat)
  | str (s : String)
  | arr (xs : List Json)
  | obj (kvs : List (String × Json))

/-- Key lookup in an object body (serde_json map access). -/
def lookupKvs : List (String × Json) → String → Option Json
  | [], _ => none
  | kv :: rest, key => if kv.1 = key then some kv.2 else lookupKvs rest key

/-- Access `Value::index_mut` for a string key followed by `Value::take`, as in
`json["series"].take()`: on `Null` the value first becomes an empty object
(so the looked-up entry is `Null`); on an object the entry is looked up
(inserted as `Null` when absent) and replaced by `Null`; on any other
value serde_json panics ("cannot access key"), modelled as `none`.
Returns the taken value and the mutated document. -/
def take1 (j : Json) (key : String) : Option (Json × Json) :=
  match j with
  | .null => some (Json.null, .obj [(key, Json.null)])
  | .obj kvs =>
      match lookupKvs kvs key with
      | some v =>
          some (v, .obj (kvs.map (fun kv => if kv.1 = key then (kv.1, Json.null) else kv)))
      | none => some (Json.null, .obj (kvs ++ [(key, Json.null)]))
  | _ => none

/-! ## Serialization (what serde derive produces for each struct) -/

def encodeOptStr : Option String → Json
  | some s => .str s
  | none => .null

def encodeSeries (s : Series) : Json :=
  .obj [("id", .num (s.id : Rat)),
        ("name", .str s.name),
        ("original_language", .str s.original_language),
        ("overview", .str s.overview),
        ("popularity", .num s.popularity),
        ("poster_path", encodeOptStr s.poster_path),
        ("first_air_date", .str s.first_air_date),
        ("vote_average", .num s.vote_average),
        ("adult", .bool s.adult)]

def encodeMovie (m : Movie) : Json :=
  .obj [("id", .num (m.id : Rat)),
        ("title", .str m.title),
        ("original_language", .str m.original_language),
        ("overview", .str m.overview),
        ("popularity", .num m.popularity),
        ("poster_path", encodeOptStr m.poster_path),
        ("release_date", .str m.release_date),
        ("vote_average", .num m.vote_average),
        ("vote_count", .num (m.vote_count : Rat)),
        ("adult", .bool m.adult)]

def encodeSeasonNotes (sn : SeasonNotes) : Json :=
  .obj [("note", .str sn.note),
        ("episode_notes", .arr (sn.episode_notes.map Json.str))]

def encodeUserMovie (um : UserMovie) : Json :=
  .obj [("movie", encodeMovie um.movie),
        ("user_rating", .num um.user_rating),
        ("note", .str um.note)]

def encodeUserSeries (us : UserSeries) : Json :=
  .obj [("series", encodeSeries us.series),
        ("user_rating", .num us.user_rating),
        ("note", .str us.note),
        ("season_notes", .arr (us.season_notes.map encodeSeasonNotes))]

/-- The `json!({"series": user_series, "movies": user_movies})` document
built by `serialize_user_productions` (the key order of a serde_json map
is invisible to the key lookups the loader performs). -/
def user_productions_json (user_series : List UserSeries) (user_movies : List UserMovie) : Json :=
  .obj [("series", .arr (user_series.map encodeUserSeries)),
        ("movies", .arr (user_movies.map encodeUserMovie))]

/-! ## Deserialization (what serde derive accepts for each struct)

serde derive walks the object entries, fills each known field from its
entry, ignores unknown fields, errors on a missing required field, and
defaults a missing `Option` field to `None`; on a map (whose keys are
unique) this agrees with per-field key lookup, which is how it is written
here. -/

def decodeString : Json → Except String String
  | .str s => .ok s
  | _ => .error "invalid type: expected a string"

def decodeBool : Json → Except String Bool
  | .bool b => .ok b
  | _ => .error "invalid type: expected a boolean"

def decodeF32 : Json → Except String Rat
  | .num q => .ok q
  | _ => .error "invalid type: expected f32"

def decodeU32 : Json → Except String Nat
  | .num q =>
      if q.den = 1 ∧ 0 ≤ q.num ∧ q.num < 4294967296 then
        .ok q.num.toNat
      else
        .error "invalid value: expected u32"
  | _ => .error "invalid type: expected u32"

/-- Read a required field: error when the key is absent. -/
def reqField (kvs : List (String × Json)) (key : String)
    (dec : Json → Except String α) : Except String α :=
  match lookupKvs kvs key with
  | some v => dec v
  | none => .error ("missing field " ++ key)

/-- Read an `Option<String>` field: a missing key and an explicit `null`
both decode to `None`. -/
def optStrField (kvs : List (String × Json)) (key : String) :
    Except String (Option String) :=
  match lookupKvs kvs key with
  | none => .ok none
  | some .null => .ok none
  | some (.str s) => .ok (some s)
  | some _ => .error "invalid type: expected a string or null"

/-- The element loop of a `Vec<T>` deserializer. -/
def decodeArr (dec : Json → Except String α) : List Json → Except String (List α)
  | [] => .ok []
  | x :: xs => do
      let a ← dec x
      let as ← decodeArr dec xs
      .ok (a :: as)

def decodeList (dec : Json → Except String α) : Json → Except String (List α)
  | .arr xs => decodeArr dec xs
  | _ => .error "invalid type: expected a sequence"

def decodeSeries : Json → Except String Series
  | .obj kvs => do
      let id ← reqField kvs "id" decodeU32
      let name ← reqField kvs "name" decodeString
      let original_language ← reqField kvs "original_language" decodeString
      let overview ← reqField kvs "overview" decodeString
      let popularity ← reqField kvs "popularity" decodeF32
      let poster_path ← optStrField kvs "poster_path"
      let first_air_date ← reqField kvs "first_air_date" decodeString
      let vote_average ← reqField kvs "vote_average" decodeF32
      let adult ← reqField kvs "adult" decodeBool
      .ok { id, name, original_language, overview, popularity,
            poster_path, first_air_date, vote_average, adult }
  | _ => .error "invalid type: expected struct Series"

def decodeMovie : Json → Except String Movie
  | .obj kvs => do
      let id ← reqField kvs "id" decodeU32
      let title ← reqField kvs "title" decodeString
      let original_language ← reqField kvs "original_language" decodeString
      let overview ← reqField kvs "overview" decodeString
      let popularity ← reqField kvs "popularity" decodeF32
      let poster_path ← optStrField kvs "poster_path"
      let release_date ← reqField kvs "release_date" decodeString
      let vote_average ← reqField kvs "vote_average" decodeF32
      let vote_count ← reqField kvs "vote_count" decodeU32
      let adult ← reqField kvs "adult" decodeBool
      .ok { id, title, original_language, overview, popularity,
            poster_path, release_date, vote_average, vote_count, adult }
  | _ => .error "invalid type: expected struct Movie"

def decodeSeasonNotes : Json → Except String SeasonNotes
  | .obj kvs => do
      let note ← reqField kvs "note" decodeString
      let episode_notes ← reqField kvs "episode_notes" (decodeList decodeString)
      .ok { note, episode_notes }
  | _ => .error "invalid type: expected struct SeasonNotes"

def decodeUserMovie : Json → Except String UserMovie
  | .obj kvs => do
      let movie ← reqField kvs "movie" decodeMovie
      let user_rating ← reqField kvs "user_rating" decodeF32
      let note ← reqField kvs "note" decodeString
      .ok { movie, user_rating, note }
  | _ => .error "invalid type: expected struct UserMovie"

def decodeUserSeries : Json → Except String UserSeries
  | .obj kvs => do
      let series ← reqField kvs "series" decodeSeries
      let user_rating ← reqField kvs "user_rating" decodeF32
      let note ← reqField kvs "note" decodeString
      let season_notes ← reqField kvs "season_notes" (decodeList decodeSeasonNotes)
      .ok { series, user_rating, note, season_notes }
  | _ => .error "invalid type: expected struct UserSeries"

/-! ## The load path (`deserialize_user_productions`, production.rs 144-166) -/

/-- Outcome of running a Rust function that may return, error, or panic. -/
inductive RunResult (α : Type) where
  | ok (a : α)
  | error (e : String)
  | panicked (msg : String)

def RunResult.isError : RunResult α → Bool
  | .error _ => true
  | _ => false

/-- The body of `deserialize_user_productions` from the parsed document on:
`json["series"].take()`, `json["movies"].take()`, then `from_value` on
each taken value. -/
def deserialize_doc (j : Json) : RunResult (List UserSeries × List UserMovie) :=
  match take1 j "series" with
  | none => .panicked "cannot access key in JSON value"
  | some (series_arr, j1) =>
      match take1 j1 "movies" with
      | none => .panicked "cannot access key in JSON value"
      | some (movies_arr, _) =>
          match decodeList decodeUserSeries series_arr with
          | .error e => .error e
          | .ok user_series =>
              match decodeList decodeUserMovie movies_arr with
              | .error e => .error e
              | .ok user_movies => .ok (user_series, user_movies)

/-- A stored file as the load path sees it: either bytes that parse to a
JSON document, or bytes that do not (`serde_json::from_reader` fails). -/
inductive FileContent where
  | malformed
  | json (j : Json)

/-- Filesystem at document granularity: association list path to content. -/
def ValueFS := List (String × FileContent)

def fsGet : ValueFS → String → Option FileContent
  | [], _ => none
  | kv :: rest, p => if kv.1 = p then some kv.2 else fsGet rest p

def fsSet (fs : ValueFS) (p : String) (c : FileContent) : ValueFS :=
  (p, c) :: fs.filter (fun kv => kv.1 != p)

def fsRemove (fs : ValueFS) (p : String) : ValueFS :=
  fs.filter (fun kv => kv.1 != p)

def default_store_path : String := "res/user_prod.json"

def temp_store_path : String := "res/user_prod_temp.json"

/-- The `match path { Some(s) => s, None => default }` at the top of the
load function. -/
def resolve_path : Option String → String
  | some s => s
  | none => default_store_path

/-- Load path `deserialize_user_productions`: open the file at the resolved path
(an absent file is an open error), parse it (`from_reader` failure is a
panic through `expect("Failed on read from memory")`), then run the
document body. -/
def deserialize_user_productions (path : Option String) (fs : ValueFS) :
    RunResult (List UserSeries × List UserMovie) :=
  match fsGet fs (resolve_path path) with
  | none => .error "No such file or directory (os error 2)"
  | some .malformed => .panicked "Failed on read from memory"
  | some (.json j) => deserialize_doc j

/-- The successful run of `serialize_user_productions` at document
granularity: the document is written to the temp path and the rename then
moves it onto the canonical path (so the temp path no longer exists). -/
def serialize_user_productions_value (user_series : List UserSeries)
    (user_movies : List UserMovie) (fs : ValueFS) : ValueFS :=
  let doc := FileContent.json (user_productions_json user_series user_movies)
  let fs1 := fsSet fs temp_store_path doc
  fsSet (fsRemove fs1 temp_store_path) default_store_path doc

/-! ## The save path at byte granularity (`serialize_user_productions`,
production.rs 120-142)

The serialized document is abstracted to its bytes `doc`.  The oracle
fixes the outcome of each fallible call made by one save:
`File::create`, `Write::write` (which on success reports how many bytes
it accepted, possibly fewer than offered), and `fs::rename`. -/

def ByteFS := List (String × List Char)

def bGet : ByteFS → String → Option (List Char)
  | [], _ => none
  | kv :: rest, p => if kv.1 = p then some kv.2 else bGet rest p

def bSet (fs : ByteFS) (p : String) (v : List Char) : ByteFS :=
  (p, v) :: fs.filter (fun kv => kv.1 != p)

def bRemove (fs : ByteFS) (p : String) : ByteFS :=
  fs.filter (fun kv => kv.1 != p)

inductive WriteOutcome where
  | wrote (n : Nat)
  | fail (e : String)

structure SaveOracle where
  create_result : Option String
  write_result : WriteOutcome
  rename_result : Option String

/-- Save path `serialize_user_productions`, file-effect part.  `File::create`
truncates the temp file; a successful `write` accepting `n` bytes stores
the first `n` bytes of the document; the code treats any non-error write
as complete and renames the temp file over the canonical path. -/
def serialize_user_productions (doc : List Char) (o : SaveOracle) (fs : ByteFS) :
    Except String Unit × ByteFS :=
  match o.create_result with
  | some e => (.error e, fs)
  | none =>
      let fs1 := bSet fs temp_store_path []
      match o.write_result with
      | .fail e => (.error e, fs1)
      | .wrote n =>
          let fs2 := bSet fs1 temp_store_path (doc.take n)
          match o.rename_result with
          | some e => (.error e, fs2)
          | none =>
              match bGet fs2 temp_store_path with
              | some contents =>
                  (.ok (), bSet (bRemove fs2 temp_store_path) default_store_path contents)
              | none => (.ok (), fs2)

/-! ## Sample values used by witnesses -/

def sampleSeries : Series :=
  { id := 5, name := "B", original_language := "en", overview := "about",
    popularity := 3, poster_path := some "p.png", first_air_date := "2019-01-01",
    vote_average := (72 / 10 : Rat), adult := false }

def sampleMovie : Movie :=
  { id := 5, title := "A", original_language := "en", overview := "about",
    popularity := 2, poster_path := none, release_date := "2020-02-02",
    vote_average := (31 / 10 : Rat), vote_count := 900, adult := false }

def sampleSeasonNotes : SeasonNotes :=
  { note := "good season", episode_notes := ["pilot", "finale"] }

def sampleUserSeries : UserSeries :=
  { series := sampleSeries, user_rating := 9, note := "watching",
    season_notes := [sampleSeasonNotes] }

def sampleUserMovie : UserMovie :=
  { movie := sampleMovie, user_rating := (85 / 10 : Rat), note := "seen" }

/-! ## Claims about the annotation hierarchy -/

/-- Claim C4: after `ensure_seasons n` (resp. `ensure_episodes n`) the
sequence length is at least `n`, the previously present elements are
unchanged verbatim (they form the prefix of the result), every appended
element is the freshly initialized empty-note state, and no other field
of the structure changes. -/
theorem ensure_growth_preserves_and_initializes :
    ∀ (us : UserSeries) (n : Nat) (sn : SeasonNotes) (m : Nat),
      (n ≤ (us.ensure_seasons n).season_notes.length
        ∧ (us.ensure_seasons n).season_notes.take us.season_notes.length = us.season_notes
        ∧ (us.ensure_seasons n).season_notes.drop us.season_notes.length
            = List.replicate (n - us.season_notes.length) SeasonNotes.new
        ∧ (us.ensure_seasons n).series = us.series
        ∧ (us.ensure_seasons n).user_rating = us.user_rating
        ∧ (us.ensure_seasons n).note = us.note)
      ∧ (m ≤ (sn.ensure_episodes m).episode_notes.length
        ∧ (sn.ensure_episodes m).episode_notes.take sn.episode_notes.length = sn.episode_notes
        ∧ (sn.ensure_episodes m).episode_notes.drop sn.episode_notes.length
            = List.replicate (m - sn.episode_notes.length) ""
        ∧ (sn.ensure_episodes m).note = sn.note) := by
  intro us n sn m
  rw [ensure_seasons_eq, ensure_episodes_eq]
  refine ⟨⟨?_, take_len_append .., drop_len_append .., rfl, rfl, rfl⟩,
          ?_, take_len_append .., drop_len_append .., rfl⟩
  · simp only [List.length_append, List.length_replicate]
    omega
  · simp only [List.length_append, List.length_replicate]
    omega

/-- Claim C7: requesting a length at most the current length is a no-op;
the whole structure is returned exactly as it was. -/
theorem ensure_noop_when_satisfied :
    (∀ (us : UserSeries) (n : Nat), n ≤ us.season_notes.length →
        us.ensure_seasons n = us)
    ∧ (∀ (sn : SeasonNotes) (m : Nat), m ≤ sn.episode_notes.length →
        sn.ensure_episodes m = sn) := by
  constructor
  · intro us n h
    unfold UserSeries.ensure_seasons
    rw [if_pos h]
  · intro sn m h
    unfold SeasonNotes.ensure_episodes
    rw [if_pos h]

theorem ensure_noop_when_satisfied_witness :
    sampleUserSeries.ensure_seasons 1 = sampleUserSeries
    ∧ sampleSeasonNotes.ensure_episodes 2 = sampleSeasonNotes :=
  ⟨ensure_noop_when_satisfied.1 sampleUserSeries 1 (by decide),
   ensure_noop_when_satisfied.2 sampleSeasonNotes 2 (by decide)⟩

/-- Claim C9: the growth operations are total and never hit an error
condition; in particular the shortfall subtraction is guarded by the
length test and can never underflow, so the run with the subtraction
checked returns exactly the unchecked result, for every current length
and every target (including targets of zero or far below the length). -/
theorem ensure_total_no_underflow :
    ∀ (us : UserSeries) (n : Nat) (sn : SeasonNotes) (m : Nat),
      us.ensure_seasons_checked n = some (us.ensure_seasons n)
      ∧ sn.ensure_episodes_checked m = some (sn.ensure_episodes m) := by
  intro us n sn m
  constructor
  · by_cases h : us.season_notes.length ≥ n
    · simp [UserSeries.ensure_seasons_checked, UserSeries.ensure_seasons, h]
    · simp [UserSeries.ensure_seasons_checked, UserSeries.ensure_seasons, h,
            checkedSub, show us.season_notes.length ≤ n by omega]
  · by_cases h : sn.episode_notes.length ≥ m
    · simp [SeasonNotes.ensure_episodes_checked, SeasonNotes.ensure_episodes, h]
    · simp [SeasonNotes.ensure_episodes_checked, SeasonNotes.ensure_episodes, h,
            checkedSub, show sn.episode_notes.length ≤ m by omega]

/-- Claim C10: growth is minimal: the resulting length is exactly the
maximum of the current length and the requested target. -/
theorem ensure_length_eq_max :
    ∀ (us : UserSeries) (n : Nat) (sn : SeasonNotes) (m : Nat),
      (us.ensure_seasons n).season_notes.length = max us.season_notes.length n
      ∧ (sn.ensure_episodes m).episode_notes.length = max sn.episode_notes.length m := by
  intro us n sn m
  rw [ensure_seasons_eq, ensure_episodes_eq]
  constructor <;> simp only [List.length_append, List.length_replicate] <;> omega

/-! ## Claim about selection identity -/

/-- Claim C5: `is_selected` returns true exactly when the list entry and
the queried identity carry the same kind with equal numeric ids; a movie
identity never matches a series identity even at the same id, and a
`None` identity matches nothing, including another `None`. -/
theorem is_selected_iff_same_kind_and_id :
    ∀ (le : ListEntry) (e : EntryType),
      le.is_selected e = true ↔
        ((∃ i, e = EntryType.movie i ∧ le.production_id = EntryType.movie i)
          ∨ (∃ i, e = EntryType.series i ∧ le.production_id = EntryType.series i)) := by
  intro le e
  obtain ⟨pid, nm, pp, rt⟩ := le
  cases e <;> cases pid <;> simp [ListEntry.is_selected] <;> exact eq_comm

/-! ## Round-trip lemmas: decoding what the store encodes -/

theorem ok_bind (a : α) (f : α → Except ε β) :
    (Except.ok a : Except ε α) >>= f = f a := rfl

theorem decodeU32_natCast (n : Nat) (h : n < 4294967296) :
    decodeU32 (Json.num (n : Rat)) = Except.ok n := by
  simp only [decodeU32]
  rw [if_pos]
  · simp
  · refine ⟨Rat.den_natCast n, ?_, ?_⟩
    · simp
    · rw [Rat.num_natCast]
      exact_mod_cast h

/-- A `u32` under `2^32` together with the bounds `serde` checks. -/
def Series.WF (s : Series) : Prop := s.id < 4294967296

def Movie.WF (m : Movie) : Prop := m.id < 4294967296 ∧ m.vote_count < 4294967296

def UserSeries.WF (us : UserSeries) : Prop := us.series.WF

def UserMovie.WF (um : UserMovie) : Prop := um.movie.WF

instance (s : Series) : Decidable s.WF := by unfold Series.WF; infer_instance

instance (m : Movie) : Decidable m.WF := by unfold Movie.WF; infer_instance

instance (us : UserSeries) : Decidable us.WF := by unfold UserSeries.WF; infer_instance

instance (um : UserMovie) : Decidable um.WF := by unfold UserMovie.WF; infer_instance

theorem decodeSeries_encodeSeries (s : Series) (h : s.WF) :
    decodeSeries (encodeSeries s) = Except.ok s := by
  obtain ⟨id, nm, ol, ov, pop, pp, fad, va, ad⟩ := s
  have hid : id < 4294967296 := h
  cases pp <;>
    simp [decodeSeries, encodeSeries, reqField, optStrField, lookupKvs, encodeOptStr,
          decodeString, decodeBool, decodeF32, ok_bind, decodeU32_natCast _ hid]

theorem decodeMovie_encodeMovie (m : Movie) (h : m.WF) :
    decodeMovie (encodeMovie m) = Except.ok m := by
  obtain ⟨id, ti, ol, ov, pop, pp, rd, va, vc, ad⟩ := m
  have hid : id < 4294967296 := h.1
  have hvc : vc < 4294967296 := h.2
  cases pp <;>
    simp [decodeMovie, encodeMovie, reqField, optStrField, lookupKvs, encodeOptStr,
          decodeString, decodeBool, decodeF32, ok_bind,
          decodeU32_natCast _ hid, decodeU32_natCast _ hvc]

theorem decodeArr_map (dec : Json → Except String α) (enc : α → Json)
    (xs : List α) (h : ∀ x ∈ xs, dec (enc x) = Except.ok x) :
    decodeArr dec (xs.map enc) = Except.ok xs := by
  induction xs with
  | nil => rfl
  | cons x xs ih =>
      simp only [List.map_cons, decodeArr, h x (by simp), ok_bind,
                 ih (fun y hy => h y (by simp [hy]))]

theorem decodeSeasonNotes_encodeSeasonNotes (sn : SeasonNotes) :
    decodeSeasonNotes (encodeSeasonNotes sn) = Except.ok sn := by
  obtain ⟨note, eps⟩ := sn
  simp [decodeSeasonNotes, encodeSeasonNotes, reqField, lookupKvs, decodeString,
        ok_bind, decodeList,
        decodeArr_map decodeString Json.str eps (fun x hx => rfl)]

theorem decodeUserMovie_encodeUserMovie (um : UserMovie) (h : um.WF) :
    decodeUserMovie (encodeUserMovie um) = Except.ok um := by
  obtain ⟨mv, ur, note⟩ := um
  simp [decodeUserMovie, encodeUserMovie, reqField, lookupKvs, decodeF32,
        decodeString, ok_bind, decodeMovie_encodeMovie mv h]

theorem decodeUserSeries_encodeUserSeries (us : UserSeries) (h : us.WF) :
    decodeUserSeries (encodeUserSeries us) = Except.ok us := by
  obtain ⟨sr, ur, note, sns⟩ := us
  simp [decodeUserSeries, encodeUserSeries, reqField, lookupKvs, decodeF32,
        decodeString, ok_bind, decodeList, decodeSeries_encodeSeries sr h,
        decodeArr_map decodeSeasonNotes encodeSeasonNotes sns
          (fun x hx => decodeSeasonNotes_encodeSeasonNotes x)]

theorem deserialize_doc_user_productions (ss : List UserSeries) (ms : List UserMovie)
    (h1 : ∀ us ∈ ss, us.WF) (h2 : ∀ um ∈ ms, um.WF) :
    deserialize_doc (user_productions_json ss ms) = RunResult.ok (ss, ms) := by
  simp [deserialize_doc, user_productions_json, take1, lookupKvs, decodeList,
        decodeArr_map decodeUserSeries encodeUserSeries ss
          (fun x hx => decodeUserSeries_encodeUserSeries x (h1 x hx)),
        decodeArr_map decodeUserMovie encodeUserMovie ms
          (fun x hx => decodeUserMovie_encodeUserMovie x (h2 x hx))]

theorem fsGet_fsSet_self (fs : ValueFS) (p : String) (c : FileContent) :
    fsGet (fsSet fs p c) p = some c := by
  simp [fsGet, fsSet]

/-! ## Claims about the durable store -/

/-- Claim C1: saving a well-formed collection (every `u32` field in its
range, both sequences possibly empty) and then loading it back reproduces
the collection field-for-field: series order, movie order, ratings, notes
and all nested season and episode notes.  The file transport between the
two calls is exact: serde_json printing and parsing are mutually inverse
on document values. -/
theorem serialize_deserialize_roundtrip :
    ∀ (ss : List UserSeries) (ms : List UserMovie) (fs : ValueFS),
      (∀ us ∈ ss, us.WF) → (∀ um ∈ ms, um.WF) →
      deserialize_user_productions Option.none
          (serialize_user_productions_value ss ms fs) = RunResult.ok (ss, ms) := by
  intro ss ms fs h1 h2
  unfold serialize_user_productions_value
  simp [deserialize_user_productions, resolve_path, fsGet_fsSet_self,
        deserialize_doc_user_productions ss ms h1 h2]

theorem serialize_deserialize_roundtrip_witness :
    deserialize_user_productions Option.none
        (serialize_user_productions_value [] [] []) = RunResult.ok ([], [])
    ∧ deserialize_user_productions Option.none
        (serialize_user_productions_value [sampleUserSeries] [sampleUserMovie] [])
      = RunResult.ok ([sampleUserSeries], [sampleUserMovie]) :=
  ⟨serialize_deserialize_roundtrip [] [] [] (by decide) (by decide),
   serialize_deserialize_roundtrip [sampleUserSeries] [sampleUserMovie] []
     (by decide) (by decide)⟩

/-- Claim C2 is violated by the code.  The load path runs the parser
through `expect("Failed on read from memory")`, so a file whose bytes are
not valid JSON makes it panic instead of returning an error; likewise a
well-formed document whose top level is not an object (here an array)
makes the `json["series"]` index panic.  Missing-field failures after a
successful object parse do return errors, but the claim quantifies over
every input document. -/
theorem deserialize_panics_on_malformed_document :
    deserialize_user_productions Option.none
        [(default_store_path, FileContent.malformed)]
      = RunResult.panicked "Failed on read from memory"
    ∧ deserialize_user_productions Option.none
        [(default_store_path, FileContent.json (Json.arr []))]
      = RunResult.panicked "cannot access key in JSON value" :=
  ⟨rfl, rfl⟩

/-- Claim C3 is violated by the code.  `io::Write::write` may accept
fewer bytes than offered while still returning success; the code ignores
the returned count (it does not use `write_all`) and renames the temp
file over the canonical path anyway.  With a two-byte document and a
write that accepts one byte, the save reports success and the canonical
store file ends up holding a strict prefix of the document, i.e. the
rename committed before the document was fully written. -/
theorem rename_commits_short_write :
    (serialize_user_productions ['a', 'b']
        ⟨Option.none, WriteOutcome.wrote 1, Option.none⟩
        [(default_store_path, ['O'])]).1 = Except.ok ()
    ∧ bGet (serialize_user_productions ['a', 'b']
        ⟨Option.none, WriteOutcome.wrote 1, Option.none⟩
        [(default_store_path, ['O'])]).2 default_store_path = some ['a'] :=
  ⟨rfl, rfl⟩

theorem bGet_filter_ne (fs : ByteFS) (p q : String) (h : q ≠ p) :
    bGet (fs.filter (fun kv => kv.1 != p)) q = bGet fs q := by
  induction fs with
  | nil => rfl
  | cons kv rest ih =>
      by_cases hp : kv.1 = p
      · have hpq : p ≠ q := fun hqp => h hqp.symm
        simp [List.filter_cons, hp, bGet, hpq, ih]
      · simp [List.filter_cons, hp, bGet, ih]

theorem bGet_bSet_ne (fs : ByteFS) (p q : String) (v : List Char) (h : q ≠ p) :
    bGet (bSet fs p v) q = bGet fs q := by
  unfold bSet
  rw [bGet]
  rw [if_neg (fun hpq => h (Eq.symm hpq))]
  exact bGet_filter_ne fs p q h

/-- Claim C6: when the temp-file creation or the document write fails,
the save returns an error and the canonical store path is left exactly as
it was, so the previously persisted content stays readable. -/
theorem failed_save_leaves_store_untouched :
    ∀ (doc : List Char) (o : SaveOracle) (fs : ByteFS),
      ((∃ e, o.create_result = some e) ∨ (∃ e, o.write_result = WriteOutcome.fail e)) →
      (∃ e, (serialize_user_productions doc o fs).1 = Except.error e)
      ∧ bGet (serialize_user_productions doc o fs).2 default_store_path
          = bGet fs default_store_path := by
  intro doc o fs h
  have hne : default_store_path ≠ temp_store_path := by decide
  obtain ⟨e, he⟩ | ⟨e, he⟩ := h
  · refine ⟨⟨e, ?_⟩, ?_⟩ <;> simp [serialize_user_productions, he]
  · cases hc : o.create_result with
    | some e2 => refine ⟨⟨e2, ?_⟩, ?_⟩ <;> simp [serialize_user_productions, hc]
    | none =>
        refine ⟨⟨e, ?_⟩, ?_⟩ <;> simp [serialize_user_productions, hc, he]
        exact bGet_bSet_ne fs temp_store_path default_store_path [] hne

theorem failed_save_leaves_store_untouched_witness :
    (∃ e, (serialize_user_productions ['a', 'b']
        ⟨Option.none, WriteOutcome.fail "disk full", Option.none⟩
        [(default_store_path, ['O'])]).1 = Except.error e)
    ∧ bGet (serialize_user_productions ['a', 'b']
        ⟨Option.none, WriteOutcome.fail "disk full", Option.none⟩
        [(default_store_path, ['O'])]).2 default_store_path
      = bGet [(default_store_path, ['O'])] default_store_path :=
  failed_save_leaves_store_untouched ['a', 'b']
    ⟨Option.none, WriteOutcome.fail "disk full", Option.none⟩
    [(default_store_path, ['O'])] (Or.inr ⟨"disk full", rfl⟩)

theorem lookupKvs_map_setNull_ne (kvs : List (String × Json)) (k key : String)
    (h : ¬ k = key) :
    lookupKvs (kvs.map (fun kv => if kv.1 = k then (kv.1, Json.null) else kv)) key
      = lookupKvs kvs key := by
  induction kvs with
  | nil => rfl
  | cons kv rest ih =>
      by_cases hk : kv.1 = k
      · simp [lookupKvs, hk, h, ih]
      · simp [lookupKvs, hk, ih]

/-- Claim C8: when the stored document is an object lacking the
top-level `movies` key (and likewise the `series` key), the load returns
a decode error — never a success with an empty list standing in for the
missing section. -/
theorem missing_top_level_key_is_error :
    ∀ (path : Option String) (fs : ValueFS) (kvs : List (String × Json)),
      fsGet fs (resolve_path path) = some (FileContent.json (Json.obj kvs)) →
      ((lookupKvs kvs "movies" = Option.none →
          (deserialize_user_productions path fs).isError = true)
        ∧ (lookupKvs kvs "series" = Option.none →
          (deserialize_user_productions path fs).isError = true)) := by
  intro path fs kvs hget
  have hrun : deserialize_user_productions path fs = deserialize_doc (Json.obj kvs) := by
    simp [deserialize_user_productions, hget]
  constructor
  · intro hm
    rw [hrun]
    unfold deserialize_doc
    cases hs : lookupKvs kvs "series" with
    | none =>
        cases hm2 : lookupKvs (kvs ++ [("series", Json.null)]) "movies" <;>
          simp [take1, hs, hm2, decodeList, RunResult.isError]
    | some v =>
        have hm2 : lookupKvs
            (kvs.map (fun kv => if kv.1 = "series" then (kv.1, Json.null) else kv))
            "movies" = Option.none := by
          rw [lookupKvs_map_setNull_ne kvs "series" "movies" (by decide)]
          exact hm
        cases hd : decodeList decodeUserSeries v with
        | error e => simp [take1, hs, hm2, hd, RunResult.isError]
        | ok l =>
            simp only [take1, hs, hm2, hd]
            simp [decodeList, RunResult.isError]
  · intro hs
    rw [hrun]
    unfold deserialize_doc
    cases hm : lookupKvs (kvs ++ [("series", Json.null)]) "movies" <;>
      simp [take1, hs, hm, decodeList, RunResult.isError]

theorem missing_top_level_key_is_error_witness :
    (deserialize_user_productions Option.none
        [(default_store_path, FileContent.json (Json.obj [("series", Json.arr [])]))]).isError
      = true
    ∧ (deserialize_user_productions Option.none
        [(default_store_path, FileContent.json (Json.obj [("movies", Json.arr [])]))]).isError
      = true :=
  ⟨(missing_top_level_key_is_error Option.none
      [(default_store_path, FileContent.json (Json.obj [("series", Json.arr [])]))]
      [("series", Json.arr [])] rfl).1 rfl,
   (missing_top_level_key_is_error Option.none
      [(default_store_path, FileContent.json (Json.obj [("movies", Json.arr [])]))]
      [("movies", Json.arr [])] rfl).2 rfl⟩

end Moviesdesk
